import Mathlib

/-!
Verification of the resilient streaming-ingestion loop of `crypto_pump_bot.py`.

The embedding models:
* the supervisor loop `RobustCryptoBot.websocket_listener` (lines 96-117):
  an outer `while self.retries < self.max_retries` loop that attempts a
  connection, resets `self.retries` to 0 on success, runs an inner receive
  loop, and on any exception escaping to the outer handler increments
  `self.retries` and sleeps `min(2 ** self.retries, 300)`;
* the inner receive loop (lines 103-109): `ws.recv` with timeout 45, a call
  `self.process_data(json.loads(data))` (Python evaluates the callee
  `self.process_data` before its argument, and the class defines no
  `process_data` method, so the call site raises `AttributeError` before any
  JSON decoding), and an `except (asyncio.TimeoutError, websockets.ConnectionClosed)`
  handler that logs and breaks out of the inner loop;
* module initialization (lines 33-40): the `REQUIRED_ENV` check that raises
  `ValueError` for a missing/falsy required variable, and the env-sourced
  `BOT_NAME` with its default;
* `RobustCryptoBot.__init__` / `_init_telegram` (lines 50-73): hardcoded
  `max_retries = 10`, hardcoded websocket URI, credential re-check;
* `RobustCryptoBot.shutdown` (lines 119-127): cancel all tasks except the
  current one, `asyncio.gather(*tasks, return_exceptions=True)` (an await
  with no timeout that suppresses task exceptions), then `app.stop()` and
  `app.shutdown()` (external Telegram collaborator, modelled as clearing a
  running flag);
* `__main__` (lines 134-139): a `try` around construction and `asyncio.run`
  whose `except Exception` catches and only logs, so the process falls off
  the end of the module with exit status 0; the module-level `ValueError`
  for missing env vars is raised before this `try` and escapes uncaught.

Machine integers: all counters are small naturals, no overflow is possible
in the source (Python ints), so `Nat` is used directly.
-/

/-- `self.max_retries = 10` (line 57). -/
def maxRetries : Nat := 10

/-- `wait = min(2 ** self.retries, 300)` (line 112), as a function of the
just-incremented retry counter. -/
def backoffWait (r : Nat) : Nat := min (2 ^ r) 300

/-- The methods defined in the body of `class RobustCryptoBot`
(lines 49-132).  The comment block at lines 129-132 defines nothing. -/
def robustCryptoBotMethods : List String :=
  ["__init__", "_init_exchange", "_init_telegram", "start",
   "system_monitor", "websocket_listener", "shutdown"]

/-- Whether `self.process_data` resolves: true iff the class defines a
`process_data` method.  It does not, so attribute lookup raises
`AttributeError`. -/
def hasProcessData : Bool := robustCryptoBotMethods.contains "process_data"

/-- Outcome of evaluating `self.process_data(...)` on one frame. -/
inductive HandleResult
  | attributeError
  | processed
deriving Repr, DecidableEq

/-- Evaluating the call site `self.process_data(json.loads(data))`
(line 106): Python resolves the callee `self.process_data` first, which
raises `AttributeError` when the attribute is absent, before the argument
`json.loads(data)` is ever evaluated. -/
def handleFrame : HandleResult :=
  if hasProcessData then HandleResult.processed else HandleResult.attributeError

/-- One result of `await asyncio.wait_for(ws.recv(), timeout=45)`:
either a frame arrives (with a flag recording whether its payload is
well-formed JSON), or the wait times out, or the connection reports closed. -/
inductive RecvEvent
  | frame (wellFormedJson : Bool)
  | timeout
  | connectionClosed
deriving Repr, DecidableEq

/-- Whether a receive event delivered a frame. -/
def RecvEvent.isFrame : RecvEvent → Bool
  | RecvEvent.frame _ => true
  | _ => false

/-- How one inner receive loop (lines 103-109) ends. -/
inductive SessionResult
  | cleanBreak
  | escaped
  | blocked
deriving Repr, DecidableEq

/-- The inner `while True` receive loop (lines 103-109) over a sequence of
receive results.  `timeout` and `connectionClosed` are caught by the inner
`except (asyncio.TimeoutError, websockets.ConnectionClosed)` and `break` the
loop (`cleanBreak`).  A frame leads to the `self.process_data` call site:
with the attribute absent this raises `AttributeError`, which is not named
by the inner handler and escapes (`escaped`); were the call to succeed the
loop would continue with one more processed tick.  An exhausted event list
means the loop is still suspended in `ws.recv` (`blocked`).  The second
component counts ticks processed successfully by `process_data`. -/
def receiveLoop : List RecvEvent → SessionResult × Nat
  | [] => (SessionResult.blocked, 0)
  | RecvEvent.timeout :: _ => (SessionResult.cleanBreak, 0)
  | RecvEvent.connectionClosed :: _ => (SessionResult.cleanBreak, 0)
  | RecvEvent.frame _ :: rest =>
    match handleFrame with
    | HandleResult.attributeError => (SessionResult.escaped, 0)
    | HandleResult.processed =>
      let r := receiveLoop rest
      (r.1, r.2 + 1)

/-- One outer-loop iteration's environment interaction:
`websockets.connect` (line 100) either raises (`connectFail`) or yields a
connection whose subsequent receive results are the given list. -/
inductive AttemptEvent
  | connectFail
  | connectOk (evs : List RecvEvent)
deriving Repr, DecidableEq

/-- Result of one iteration of the outer `while` body (lines 99-114). -/
structure StepResult where
  retries : Nat
  wait : Option Nat
  blocked : Bool
  ticks : Nat
deriving Repr, DecidableEq

/-- One iteration of the outer loop body, from retry counter `r`:
`connectFail` is caught by the outer `except Exception` (lines 110-114),
which increments the counter and sleeps `backoffWait` of the new value.
On `connectOk`, line 102 sets `self.retries = 0` immediately on entering the
`async with` block, before any message; then the inner receive loop runs.
A clean inner break leaves the counter at 0 and performs no sleep; an
exception escaping the inner loop closes the connection (leaving the
`async with`) and reaches the outer handler, which increments the
just-reset counter to 1 and sleeps `backoffWait 1`. -/
def listenerStep (r : Nat) : AttemptEvent → StepResult
  | AttemptEvent.connectFail =>
    { retries := r + 1, wait := some (backoffWait (r + 1)), blocked := false, ticks := 0 }
  | AttemptEvent.connectOk evs =>
    match receiveLoop evs with
    | (SessionResult.cleanBreak, n) =>
      { retries := 0, wait := none, blocked := false, ticks := n }
    | (SessionResult.escaped, n) =>
      { retries := 0 + 1, wait := some (backoffWait (0 + 1)), blocked := false, ticks := n }
    | (SessionResult.blocked, n) =>
      { retries := 0, wait := none, blocked := true, ticks := n }

/-- Observable outcome of running `websocket_listener` against a finite
list of attempt events.  `trace` records the retry-counter value after each
completed outer iteration, `waits` the sleeps performed in order,
`attempts` the number of `websockets.connect` calls made, `halted` whether
the outer `while` condition failed so control reached lines 116-117 (the
single `await self.shutdown()` of the listener), `blocked` whether the
listener is still suspended inside `ws.recv`, and `ticksProcessed` the
total number of ticks handed to a successful `process_data` call. -/
structure RunResult where
  retries : Nat
  trace : List Nat
  waits : List Nat
  attempts : Nat
  halted : Bool
  blocked : Bool
  ticksProcessed : Nat
deriving Repr, DecidableEq

/-- The outer `while self.retries < self.max_retries` loop (lines 98-117)
run against a finite schedule of attempt events.  The condition is checked
before every connection attempt; once it fails the loop exits and the
listener triggers its shutdown (`halted`), consuming no further events. -/
def listenerRun (r : Nat) : List AttemptEvent → RunResult
  | [] =>
    if r < maxRetries then
      { retries := r, trace := [], waits := [], attempts := 0,
        halted := false, blocked := false, ticksProcessed := 0 }
    else
      { retries := r, trace := [], waits := [], attempts := 0,
        halted := true, blocked := false, ticksProcessed := 0 }
  | e :: es =>
    if r < maxRetries then
      let st := listenerStep r e
      if st.blocked then
        { retries := st.retries, trace := [st.retries], waits := st.wait.toList,
          attempts := 1, halted := false, blocked := true, ticksProcessed := st.ticks }
      else
        let rest := listenerRun st.retries es
        { retries := rest.retries, trace := st.retries :: rest.trace,
          waits := st.wait.toList ++ rest.waits, attempts := rest.attempts + 1,
          halted := rest.halted, blocked := rest.blocked,
          ticksProcessed := st.ticks + rest.ticksProcessed }
    else
      { retries := r, trace := [], waits := [], attempts := 0,
        halted := true, blocked := false, ticksProcessed := 0 }

/-- A list of naturals is monotonically non-decreasing. -/
def nondecreasingList : List Nat → Bool
  | [] => true
  | [_] => true
  | a :: b :: t => decide (a ≤ b) && nondecreasingList (b :: t)

/-- A list of naturals is strictly increasing. -/
def strictlyIncreasingList : List Nat → Bool
  | [] => true
  | [_] => true
  | a :: b :: t => decide (a < b) && strictlyIncreasingList (b :: t)

/-- `REQUIRED_ENV = ['TELEGRAM_TOKEN', 'CHAT_ID']` (line 33). -/
def REQUIRED_ENV : List String := ["TELEGRAM_TOKEN", "CHAT_ID"]

/-- Python truthiness of `os.getenv(var)`: `None` and the empty string are
falsy. -/
def truthy : Option String → Bool
  | none => false
  | some s => !(s == "")

/-- The `for var in REQUIRED_ENV: if not os.getenv(var): raise ...` loop
(lines 34-36): returns the first required variable that is absent or empty,
if any. -/
def checkRequired (env : String → Option String) : List String → Option String
  | [] => none
  | v :: vs => if truthy (env v) then checkRequired env vs else some v

/-- Module-level configuration read at lines 38-40. -/
structure ModuleConfig where
  telegramToken : String
  chatId : String
  botName : String
deriving Repr, DecidableEq

/-- Module initialization (lines 33-40): the required-env check raising
`ValueError` with its message, then the reads of `TELEGRAM_TOKEN`,
`CHAT_ID` and `BOT_NAME` (with default `'GitHub Codespaces Bot'`). -/
def moduleInit (env : String → Option String) : Except String ModuleConfig :=
  match checkRequired env REQUIRED_ENV with
  | some v => Except.error ("Missing required environment variable: " ++ v)
  | none =>
    Except.ok
      { telegramToken := (env "TELEGRAM_TOKEN").getD ""
        chatId := (env "CHAT_ID").getD ""
        botName := (env "BOT_NAME").getD "GitHub Codespaces Bot" }

/-- `ALERT_THRESHOLDS` (lines 43-47): a hardcoded module-level dict,
not read from the environment. -/
def ALERT_THRESHOLDS : List (String × ℚ) := [("5m", 5), ("15m", 10), ("1h", 50)]

/-- The bot state set up by `RobustCryptoBot.__init__` (lines 50-57),
restricted to the fields the supervisor loop uses. -/
structure RobustCryptoBot where
  wsUri : String
  retries : Nat
  max_retries : Nat
deriving Repr, DecidableEq

/-- `RobustCryptoBot.__init__` together with `_init_telegram` (lines 50-73):
re-checks the credentials (raising `ValueError("Telegram credentials missing")`
when either is empty) and initializes `ws_uri`, `retries = 0` and the
hardcoded `max_retries = 10`. -/
def botInit (cfg : ModuleConfig) : Except String RobustCryptoBot :=
  if cfg.telegramToken == "" || cfg.chatId == "" then
    Except.error "Telegram credentials missing"
  else
    Except.ok
      { wsUri := "wss://stream.binance.com:9443/ws/!ticker@arr"
        retries := 0
        max_retries := maxRetries }

/-- A raised Python error: `except Exception` catches only the `exception`
kind; `BaseException`s that are not `Exception`s (such as
`asyncio.CancelledError` or `KeyboardInterrupt`) escape it. -/
inductive PyError
  | exception (msg : String)
  | baseException (msg : String)
deriving Repr, DecidableEq

/-- How the body `bot = RobustCryptoBot(); asyncio.run(bot.start())`
(lines 136-137) ends. -/
inductive RunOutcome
  | normal
  | raised (e : PyError)
deriving Repr, DecidableEq

/-- Process exit code of `__main__` (lines 134-139).  A failing required-env
check raises at module level, before the `try`, and escapes uncaught (exit
status 1).  Otherwise the `try` body runs: `except Exception` catches any
`Exception`, logs it, and control falls off the end of the module (exit
status 0); a non-`Exception` `BaseException` escapes uncaught (status 1);
a normal return also falls off the end (status 0). -/
def mainExitCode (env : String → Option String) (run : RunOutcome) : Nat :=
  match checkRequired env REQUIRED_ENV with
  | some _ => 1
  | none =>
    match run with
    | RunOutcome.normal => 0
    | RunOutcome.raised (PyError.exception _) => 0
    | RunOutcome.raised (PyError.baseException _) => 1

deriving instance DecidableEq for Except

/-- An asyncio task as seen by `shutdown` (lines 119-127): whether it is the
currently running task, whether it has already finished, whether it
terminates after a cancellation request (a task that swallows
`CancelledError` never does), and the result it settles with. -/
structure RunningTask where
  isCurrent : Bool
  done : Bool
  acksCancel : Bool
  outcome : Except String Unit
deriving Repr, DecidableEq

/-- The global task registry plus the Telegram application flag used by
`shutdown`. -/
structure SystemState where
  tasks : List RunningTask
  appRunning : Bool
deriving Repr, DecidableEq

/-- Effect of `task.cancel()` followed by awaiting the task: a task that was
already done keeps its result; an unfinished task settles with
`CancelledError`. -/
def cancelledFinish (t : RunningTask) : RunningTask :=
  if t.done then t else { t with done := true, outcome := Except.error "CancelledError" }

/-- `task.cancel()` as applied by line 123 to every task in the line-122
list, which excludes the current task. -/
def applyCancel (t : RunningTask) : RunningTask :=
  if t.isCurrent then t else cancelledFinish t

/-- `tasks = [t for t in asyncio.all_tasks() if t is not asyncio.current_task()]`
(line 122). -/
def othersOf (s : SystemState) : List RunningTask :=
  s.tasks.filter (fun t => !t.isCurrent)

/-- Whether `await asyncio.gather(*tasks, return_exceptions=True)` (line 124)
ever returns: it does iff every awaited task settles, i.e. is already done or
terminates after cancellation.  There is no timeout on this await. -/
def allSettle (ts : List RunningTask) : Bool :=
  ts.all (fun t => t.done || t.acksCancel)

/-- `RobustCryptoBot.shutdown` (lines 119-127): cancel every task except the
current one, await them via `gather(..., return_exceptions=True)` — which
returns the settled results as a list instead of raising — then
`app.stop()` and `app.shutdown()` (clearing the running flag).  When some
cancelled task never settles the un-timed await never returns (`none`). -/
def shutdownState (s : SystemState) :
    Option (SystemState × List (Except String Unit)) :=
  if allSettle (othersOf s) then
    some ({ tasks := s.tasks.map applyCancel, appRunning := false },
          (othersOf s).map (fun t => (cancelledFinish t).outcome))
  else
    none

/-- A sample environment providing both required variables and nothing else. -/
def envValid : String → Option String := fun k =>
  if k == "TELEGRAM_TOKEN" then some "123456:ABC"
  else if k == "CHAT_ID" then some "42" else none

/-- A sample environment that additionally sets retry/threshold overrides
that the program never reads. -/
def envWithOverrides : String → Option String := fun k =>
  if k == "TELEGRAM_TOKEN" then some "tok"
  else if k == "CHAT_ID" then some "7"
  else if k == "MAX_RETRIES" then some "3"
  else if k == "ALERT_5M" then some "1.5" else none

/-- A pending task that ignores cancellation. -/
def taskHung : RunningTask :=
  { isCurrent := false, done := false, acksCancel := false, outcome := Except.ok () }

/-- A system whose only other task never acknowledges cancellation. -/
def sHung : SystemState := { tasks := [taskHung], appRunning := true }

/-- The task currently executing `shutdown`. -/
def taskCurrent : RunningTask :=
  { isCurrent := true, done := false, acksCancel := true, outcome := Except.ok () }

/-- A task that already finished by raising an exception. -/
def taskDoneErr : RunningTask :=
  { isCurrent := false, done := true, acksCancel := false, outcome := Except.error "Boom" }

/-- A pending task that terminates when cancelled. -/
def taskAcks : RunningTask :=
  { isCurrent := false, done := false, acksCancel := true, outcome := Except.ok () }

/-- A system in which every other task settles, one of them with an
exception. -/
def sOk : SystemState :=
  { tasks := [taskCurrent, taskDoneErr, taskAcks], appRunning := true }

/-- A throwaway module configuration. -/
def cfg0 : ModuleConfig := { telegramToken := "", chatId := "", botName := "" }

/-- A throwaway bot value. -/
def bot0 : RobustCryptoBot := { wsUri := "", retries := 0, max_retries := 0 }

/-- The state left behind by a completed shutdown from `sOk`. -/
def sOkAfter : SystemState :=
  { tasks := [taskCurrent, taskDoneErr,
      { isCurrent := false, done := true, acksCancel := true,
        outcome := Except.error "CancelledError" }],
    appRunning := false }

/-- The settled results gathered by that shutdown. -/
def resultsOk : List (Except String Unit) :=
  [Except.error "Boom", Except.error "CancelledError"]

/-- The module configuration produced from `envWithOverrides`. -/
def cfgOv : ModuleConfig :=
  { telegramToken := "tok", chatId := "7", botName := "GitHub Codespaces Bot" }

/-- The bot state `__init__` produces from any valid configuration. -/
def botStd : RobustCryptoBot :=
  { wsUri := "wss://stream.binance.com:9443/ws/!ticker@arr", retries := 0,
    max_retries := maxRetries }

/-! ## Helper lemmas -/

/-- No inner receive loop ever processes a tick: the `process_data` call
site raises before processing. -/
theorem receiveLoop_snd_zero (evs : List RecvEvent) : (receiveLoop evs).2 = 0 := by
  cases evs with
  | nil => rfl
  | cons e rest => cases e <;> rfl

/-- No outer-loop iteration processes a tick. -/
theorem listenerStep_ticks_zero (r : Nat) (e : AttemptEvent) :
    (listenerStep r e).ticks = 0 := by
  cases e with
  | connectFail => rfl
  | connectOk evs =>
    have h2 := receiveLoop_snd_zero evs
    rcases hrl : receiveLoop evs with ⟨sr, n⟩
    rw [hrl] at h2
    cases sr <;> simp [listenerStep, hrl] <;> exact h2

/-- No run of the listener processes a tick. -/
theorem listenerRun_ticks_zero (events : List AttemptEvent) (r : Nat) :
    (listenerRun r events).ticksProcessed = 0 := by
  induction events generalizing r with
  | nil => by_cases h : r < maxRetries <;> simp [listenerRun, h]
  | cons e es ih =>
    by_cases h : r < maxRetries
    · by_cases hb : (listenerStep r e).blocked <;>
        simp [listenerRun, h, hb, listenerStep_ticks_zero, ih]
    · simp [listenerRun, h]

/-- Once the retry budget is exhausted, the loop consumes no further
events: it exits at the `while` check and triggers shutdown. -/
theorem listenerRun_at_max (extra : List AttemptEvent) :
    listenerRun maxRetries extra =
      { retries := maxRetries, trace := [], waits := [], attempts := 0,
        halted := true, blocked := false, ticksProcessed := 0 } := by
  cases extra <;> rfl

/-- The await at line 124 returns iff every task other than the current one
settles (is already done or terminates after cancellation). -/
theorem shutdownState_isSome_iff (s : SystemState) :
    (shutdownState s).isSome ↔
      ∀ t ∈ s.tasks, t.isCurrent = true ∨ t.done = true ∨ t.acksCancel = true := by
  have hsome : (shutdownState s).isSome = allSettle (othersOf s) := by
    unfold shutdownState
    by_cases h : allSettle (othersOf s) = true <;> simp [h]
  rw [hsome]
  unfold allSettle othersOf
  rw [List.all_eq_true]
  constructor
  · intro hall t ht
    cases hcur : t.isCurrent with
    | true => exact Or.inl rfl
    | false =>
      have hm : t ∈ s.tasks.filter (fun u => !u.isCurrent) :=
        List.mem_filter.mpr ⟨ht, by simp [hcur]⟩
      have := hall t hm
      exact Or.inr (by simpa using this)
  · intro hall t ht
    rcases List.mem_filter.mp ht with ⟨hmem, hnc⟩
    rcases hall t hmem with hc | hd | ha
    · simp [hc] at hnc
    · simp [hd]
    · simp [ha]

/-! ## Claim theorems -/

/-- C1: for every streak of N consecutive connection-establishment failures
with N < max_retries = 10, starting from a zero counter, the loop makes
exactly N reconnect attempts without halting; the counter is incremented
before each backoff wait and is strictly increasing over the streak
(trace = 1, 2, ..., N), and each wait equals min(2^count, 300), a
monotonically non-decreasing sequence never exceeding the 300 cap. -/
theorem c1_backoff_streak (N : Nat) (h : N < maxRetries) :
    (listenerRun 0 (List.replicate N AttemptEvent.connectFail)).attempts = N ∧
    (listenerRun 0 (List.replicate N AttemptEvent.connectFail)).halted = false ∧
    (listenerRun 0 (List.replicate N AttemptEvent.connectFail)).trace =
      (List.range N).map (fun k => k + 1) ∧
    strictlyIncreasingList
      (listenerRun 0 (List.replicate N AttemptEvent.connectFail)).trace = true ∧
    (listenerRun 0 (List.replicate N AttemptEvent.connectFail)).waits =
      (List.range N).map (fun k => backoffWait (k + 1)) ∧
    nondecreasingList
      (listenerRun 0 (List.replicate N AttemptEvent.connectFail)).waits = true ∧
    ∀ w ∈ (listenerRun 0 (List.replicate N AttemptEvent.connectFail)).waits, w ≤ 300 := by
  have h' : N < 10 := h
  interval_cases N <;> decide

/-- Witness for C1 at N = 3. -/
theorem c1_backoff_streak_witness :
    3 < maxRetries ∧
    ((listenerRun 0 (List.replicate 3 AttemptEvent.connectFail)).attempts = 3 ∧
     (listenerRun 0 (List.replicate 3 AttemptEvent.connectFail)).halted = false ∧
     (listenerRun 0 (List.replicate 3 AttemptEvent.connectFail)).trace =
       (List.range 3).map (fun k => k + 1) ∧
     strictlyIncreasingList
       (listenerRun 0 (List.replicate 3 AttemptEvent.connectFail)).trace = true ∧
     (listenerRun 0 (List.replicate 3 AttemptEvent.connectFail)).waits =
       (List.range 3).map (fun k => backoffWait (k + 1)) ∧
     nondecreasingList
       (listenerRun 0 (List.replicate 3 AttemptEvent.connectFail)).waits = true ∧
     ∀ w ∈ (listenerRun 0 (List.replicate 3 AttemptEvent.connectFail)).waits, w ≤ 300) :=
  ⟨by decide, c1_backoff_streak 3 (by decide)⟩

/-- C2 counterexample: starting from a counter of 5, a connection that
succeeds and then times out without ever delivering a message (the session
event list contains no frame) still resets the counter to 0 — refuting
"reset if and only if connected and first message received". -/
theorem c2_reset_without_message_cex :
    (listenerRun 5 [AttemptEvent.connectOk [RecvEvent.timeout]]).retries = 0 ∧
    List.all [RecvEvent.timeout] (fun e => !(RecvEvent.isFrame e)) = true ∧
    ¬ (listenerRun 5 [AttemptEvent.connectOk [RecvEvent.timeout]]).retries = 5 := by
  decide

/-- C2 amended: the counter is reset to 0 exactly on successful connection
establishment (line 102), before any message: a failure never resets
(counter becomes r+1); any successful connection erases the prior streak
regardless of messages (counter afterwards is at most 1, and exactly 0 when
the session ends without a frame); and after K failures followed by a
successful connection, the next failure waits backoffWait 1 = 2, not
2^(K+1). -/
theorem c2_reset_on_connect_amended (r K : Nat) (hK : K < maxRetries) :
    (listenerStep r AttemptEvent.connectFail).retries = r + 1 ∧
    (listenerStep r (AttemptEvent.connectOk [RecvEvent.timeout])).retries = 0 ∧
    (∀ evs, (listenerStep r (AttemptEvent.connectOk evs)).retries ≤ 1) ∧
    (listenerRun 0 (List.replicate K AttemptEvent.connectFail ++
      [AttemptEvent.connectOk [RecvEvent.timeout], AttemptEvent.connectFail])).waits.getLast?
      = some (backoffWait 1) := by
  refine ⟨rfl, rfl, ?_, ?_⟩
  · intro evs
    rcases hrl : receiveLoop evs with ⟨sr, n⟩
    cases sr <;> simp [listenerStep, hrl]
  · have hK' : K < 10 := hK
    interval_cases K <;> decide

/-- Witness for C2 amended at r = 5, K = 4. -/
theorem c2_reset_on_connect_amended_witness :
    4 < maxRetries ∧
    ((listenerStep 5 AttemptEvent.connectFail).retries = 5 + 1 ∧
     (listenerStep 5 (AttemptEvent.connectOk [RecvEvent.timeout])).retries = 0 ∧
     (∀ evs, (listenerStep 5 (AttemptEvent.connectOk evs)).retries ≤ 1) ∧
     (listenerRun 0 (List.replicate 4 AttemptEvent.connectFail ++
       [AttemptEvent.connectOk [RecvEvent.timeout], AttemptEvent.connectFail])).waits.getLast?
       = some (backoffWait 1)) :=
  ⟨by decide, c2_reset_on_connect_amended 5 4 (by decide)⟩

/-- C3 counterexample: two consecutive sessions that each end in an idle
timeout (or connection close) produce two reconnect attempts with an empty
wait list and a counter trace of [0, 0]: no Backoff transition, no counter
increment, and no wait occurs between the attempts — refuting the claim
that every timeout/close is followed by an increment and a wait. -/
theorem c3_no_backoff_on_timeout_cex :
    (listenerRun 0 [AttemptEvent.connectOk [RecvEvent.timeout],
        AttemptEvent.connectOk [RecvEvent.connectionClosed]]).attempts = 2 ∧
    (listenerRun 0 [AttemptEvent.connectOk [RecvEvent.timeout],
        AttemptEvent.connectOk [RecvEvent.connectionClosed]]).waits = [] ∧
    (listenerRun 0 [AttemptEvent.connectOk [RecvEvent.timeout],
        AttemptEvent.connectOk [RecvEvent.connectionClosed]]).trace = [0, 0] ∧
    ¬ (listenerRun 0 [AttemptEvent.connectOk [RecvEvent.timeout],
        AttemptEvent.connectOk [RecvEvent.connectionClosed]]).waits ≠ [] := by
  decide

/-- C3 amended: an idle timeout or ConnectionClosed while connected is
caught by the inner handler, which breaks the receive loop; the supervisor
then reattempts the connection immediately — the counter stays at the 0 it
was reset to on connect and no backoff wait is performed.  Only failures
reaching the outer handler (a failed connect, or an exception escaping the
receive loop) increment the counter and wait min(2^count, 300). -/
theorem c3_timeout_immediate_reconnect (r : Nat) (evs : List RecvEvent)
    (h : (receiveLoop evs).1 = SessionResult.cleanBreak) :
    listenerStep r (AttemptEvent.connectOk evs) =
      { retries := 0, wait := none, blocked := false, ticks := 0 } ∧
    listenerStep r AttemptEvent.connectFail =
      { retries := r + 1, wait := some (backoffWait (r + 1)), blocked := false, ticks := 0 } := by
  constructor
  · have h2 := receiveLoop_snd_zero evs
    rcases hrl : receiveLoop evs with ⟨sr, n⟩
    rw [hrl] at h h2
    simp only at h h2
    subst h h2
    simp [listenerStep, hrl]
  · rfl

/-- Witness for C3 amended at r = 2 with a timeout session. -/
theorem c3_timeout_immediate_reconnect_witness :
    (receiveLoop [RecvEvent.timeout]).1 = SessionResult.cleanBreak ∧
    (listenerStep 2 (AttemptEvent.connectOk [RecvEvent.timeout]) =
      { retries := 0, wait := none, blocked := false, ticks := 0 } ∧
     listenerStep 2 AttemptEvent.connectFail =
      { retries := 2 + 1, wait := some (backoffWait (2 + 1)), blocked := false, ticks := 0 }) :=
  ⟨by decide, c3_timeout_immediate_reconnect 2 [RecvEvent.timeout] (by decide)⟩

/-- Awaiting a cancelled task leaves it settled. -/
theorem cancelledFinish_done (t : RunningTask) : (cancelledFinish t).done = true := by
  unfold cancelledFinish
  split
  · assumption
  · rfl

/-- Cancellation does not change which task is the current one. -/
theorem cancelledFinish_isCurrent (t : RunningTask) :
    (cancelledFinish t).isCurrent = t.isCurrent := by
  unfold cancelledFinish
  split <;> rfl

/-- A settled task is unchanged by a further cancel-and-await. -/
theorem cancelledFinish_of_done (t : RunningTask) (h : t.done = true) :
    cancelledFinish t = t := by
  unfold cancelledFinish
  simp [h]

/-- Cancel-and-await is idempotent on a single task. -/
theorem applyCancel_idem (t : RunningTask) :
    applyCancel (applyCancel t) = applyCancel t := by
  cases hcur : t.isCurrent with
  | true => simp [applyCancel, hcur]
  | false =>
    simp only [applyCancel, hcur, Bool.false_eq_true, if_false,
      cancelledFinish_isCurrent]
    exact cancelledFinish_of_done _ (cancelledFinish_done t)

/-- Applying the line-123 cancellation twice equals applying it once. -/
theorem map_applyCancel_idem (l : List RunningTask) :
    (l.map applyCancel).map applyCancel = l.map applyCancel := by
  induction l with
  | nil => rfl
  | cons t l ih => simp [applyCancel_idem, ih]

/-- After one completed shutdown, every non-current task is settled, so the
line-124 await of a second shutdown returns immediately. -/
theorem allSettle_after_cancel (l : List RunningTask) :
    allSettle ((l.map applyCancel).filter (fun t => !t.isCurrent)) = true := by
  induction l with
  | nil => rfl
  | cons t l ih =>
    simp only [List.map_cons, List.filter_cons]
    cases hcur : t.isCurrent with
    | true =>
      have hap : applyCancel t = t := by simp [applyCancel, hcur]
      rw [hap]
      simp [hcur, ih]
    | false =>
      have hap : applyCancel t = cancelledFinish t := by simp [applyCancel, hcur]
      rw [hap]
      simp only [cancelledFinish_isCurrent, hcur, Bool.not_false, if_true]
      simp only [allSettle, List.all_cons, cancelledFinish_done, Bool.true_or,
        Bool.true_and]
      exact ih

/-- C4: starting from a zero counter, 10 = max_retries consecutive
connection failures drive the counter to max_retries; the `while` condition
then fails, the loop exits with exactly 10 attempts made and `halted` set —
control reaches line 117's single `await self.shutdown()`.  Once the counter
equals max_retries, no further events are consumed: zero additional
attempts, so the Halted transition and its shutdown trigger happen exactly
once.  The shutdown procedure is idempotent: if a shutdown run completes in
state s2, running shutdown again from s2 completes and leaves the state
unchanged (every other task is already settled, cancelling settled tasks is
a no-op, and stopping the already-stopped application leaves it stopped). -/
theorem c4_halt_and_shutdown :
    (listenerRun 0 (List.replicate maxRetries AttemptEvent.connectFail) =
      { retries := maxRetries, trace := [1, 2, 3, 4, 5, 6, 7, 8, 9, 10],
        waits := [2, 4, 8, 16, 32, 64, 128, 256, 300, 300],
        attempts := maxRetries, halted := true, blocked := false,
        ticksProcessed := 0 }) ∧
    (∀ extra : List AttemptEvent, listenerRun maxRetries extra =
      { retries := maxRetries, trace := [], waits := [], attempts := 0,
        halted := true, blocked := false, ticksProcessed := 0 }) ∧
    (∀ (s s2 : SystemState) (r : List (Except String Unit)),
      shutdownState s = some (s2, r) →
      ∃ r2, shutdownState s2 = some (s2, r2)) := by
  refine ⟨by decide, listenerRun_at_max, ?_⟩
  intro s s2 r h
  unfold shutdownState at h
  by_cases hset : allSettle (othersOf s) = true
  · rw [if_pos hset] at h
    injection h with h'
    obtain ⟨hs2, hr⟩ := Prod.mk.injEq _ _ _ _ |>.mp h'
    refine ⟨(othersOf s2).map (fun t => (cancelledFinish t).outcome), ?_⟩
    unfold shutdownState
    rw [if_pos (by rw [← hs2]; exact allSettle_after_cancel s.tasks)]
    rw [← hs2]
    simp [othersOf, map_applyCancel_idem, applyCancel_idem]
  · rw [if_neg hset] at h
    exact absurd h (by simp)

/-- Witness for C4: a concrete completed shutdown is idempotent, and from a
counter already at max_retries a pending failure event is not consumed. -/
theorem c4_halt_and_shutdown_witness :
    (∃ r2, shutdownState sOkAfter = some (sOkAfter, r2)) ∧
    listenerRun maxRetries [AttemptEvent.connectFail] =
      { retries := maxRetries, trace := [], waits := [], attempts := 0,
        halted := true, blocked := false, ticksProcessed := 0 } :=
  ⟨c4_halt_and_shutdown.2.2 sOk sOkAfter resultsOk (by decide),
   c4_halt_and_shutdown.2.1 [AttemptEvent.connectFail]⟩

/-- C5 counterexample: a session delivering a malformed frame (followed by
a further frame that is never read) ends the connection and increments the
retry counter to 1 with a backoff wait of 2 — the frame is not skipped and
the receive loop does not continue on the same connection, refuting local
recovery of decode failures. -/
theorem c5_malformed_not_skipped_cex :
    (listenerRun 0 [AttemptEvent.connectOk
        [RecvEvent.frame false, RecvEvent.frame true]]).retries = 1 ∧
    (listenerRun 0 [AttemptEvent.connectOk
        [RecvEvent.frame false, RecvEvent.frame true]]).waits = [backoffWait 1] ∧
    (listenerRun 0 [AttemptEvent.connectOk
        [RecvEvent.frame false, RecvEvent.frame true]]).attempts = 1 ∧
    ¬ (listenerRun 0 [AttemptEvent.connectOk
        [RecvEvent.frame false, RecvEvent.frame true]]).retries = 0 := by
  decide

/-- C5 amended: a malformed frame is not locally recovered.  The
`process_data` attribute lookup raises AttributeError before JSON decoding
is even attempted; the exception is not caught by the inner handler (which
names only TimeoutError and ConnectionClosed), so the session ends, the
connection closes, and the outer handler counts a connection failure: the
counter becomes 1 and the loop waits backoffWait 1 = 2 before reconnecting. -/
theorem c5_malformed_frame_amended (r : Nat) (rest : List RecvEvent) :
    receiveLoop (RecvEvent.frame false :: rest) = (SessionResult.escaped, 0) ∧
    listenerStep r (AttemptEvent.connectOk (RecvEvent.frame false :: rest)) =
      { retries := 1, wait := some (backoffWait 1), blocked := false, ticks := 0 } :=
  ⟨rfl, rfl⟩

/-- C6: the class defines no `process_data` method, so on any connection
that receives a frame — well-formed JSON or not — the call site raises
AttributeError; the exception escapes the inner handler, the session ends
(closing the connection), and the outer handler counts a connection failure:
the counter (just reset to 0 on connect) becomes 1 and a backoff wait of 2
is performed.  Consequently no run of the listener ever processes a tick. -/
theorem c6_process_data_missing (r : Nat) (b : Bool) (rest : List RecvEvent)
    (events : List AttemptEvent) :
    hasProcessData = false ∧
    receiveLoop (RecvEvent.frame b :: rest) = (SessionResult.escaped, 0) ∧
    listenerStep r (AttemptEvent.connectOk (RecvEvent.frame b :: rest)) =
      { retries := 0 + 1, wait := some (backoffWait (0 + 1)), blocked := false,
        ticks := 0 } ∧
    (listenerRun r events).ticksProcessed = 0 := by
  refine ⟨rfl, ?_, ?_, listenerRun_ticks_zero events r⟩
  · cases b <;> rfl
  · cases b <;> rfl

/-- C7 counterexample: with both required variables present, a fatal
initialization error raised inside `RobustCryptoBot()` (e.g. an invalid
token rejected by the Telegram builder) is an `Exception`, so the
`__main__` handler catches and logs it and the process exits with status 0 —
refuting "non-zero on fatal initialization error"; a retry-exhaustion halt
likewise surfaces (if at all) as a caught `Exception`, also exiting 0. -/
theorem c7_exit_zero_on_fatal_cex :
    checkRequired envValid REQUIRED_ENV = none ∧
    mainExitCode envValid (RunOutcome.raised (PyError.exception "InvalidToken")) = 0 ∧
    mainExitCode envValid
      (RunOutcome.raised (PyError.exception "Maximum retries reached")) = 0 ∧
    mainExitCode envValid RunOutcome.normal = 0 := by
  decide

/-- C7 amended: the exit status is 1 exactly when a required environment
variable is missing (the module-level ValueError is raised before the
`__main__` try and escapes uncaught) or when a `BaseException` that is not
an `Exception` escapes; every `Exception` raised during bot construction or
the run — fatal initialization errors included — is caught by the
`__main__` handler, which only logs, and the process exits 0, as it does on
a clean return. -/
theorem c7_exit_codes_amended (env : String → Option String) (m m2 : String) :
    mainExitCode env RunOutcome.normal =
      (if (checkRequired env REQUIRED_ENV).isSome then 1 else 0) ∧
    mainExitCode env (RunOutcome.raised (PyError.exception m)) =
      (if (checkRequired env REQUIRED_ENV).isSome then 1 else 0) ∧
    mainExitCode env (RunOutcome.raised (PyError.baseException m2)) = 1 := by
  rcases hcr : checkRequired env REQUIRED_ENV with _ | v <;>
    simp [mainExitCode, hcr]

/-- C8 counterexample: shutdown's await on the cancelled tasks has no
timeout: with a single other task that never acknowledges cancellation, the
line-124 gather never returns and shutdown never completes — refuting
"bounded by a shutdown timeout" and "does not hang past that timeout". -/
theorem c8_shutdown_hangs_cex :
    taskHung.isCurrent = false ∧
    taskHung.acksCancel = false ∧
    shutdownState sHung = none := by
  decide

/-- C8 amended: shutdown cancels every task other than the current one and
awaits them with no timeout bound: the await returns precisely when every
other task is already done or terminates after cancellation — a task that
never acknowledges cancellation hangs shutdown forever (there is no
forceful abandonment) — and whenever it does return, the Telegram
application is stopped and shut down (releasing the notification channel). -/
theorem c8_await_unbounded_amended (s : SystemState) :
    ((shutdownState s).isSome ↔
      ∀ t ∈ s.tasks, t.isCurrent = true ∨ t.done = true ∨ t.acksCancel = true) ∧
    (∀ (s2 : SystemState) (r : List (Except String Unit)),
      shutdownState s = some (s2, r) → s2.appRunning = false) := by
  refine ⟨shutdownState_isSome_iff s, ?_⟩
  intro s2 r h
  unfold shutdownState at h
  by_cases hset : allSettle (othersOf s) = true
  · rw [if_pos hset] at h
    injection h with h'
    obtain ⟨hs2, _⟩ := Prod.mk.injEq _ _ _ _ |>.mp h'
    rw [← hs2]
  · rw [if_neg hset] at h
    exact absurd h (by simp)

/-- Witness for C8 amended on the concrete system `sOk`. -/
theorem c8_await_unbounded_amended_witness :
    (shutdownState sOk).isSome ∧ sOkAfter.appRunning = false :=
  ⟨(c8_await_unbounded_amended sOk).1.mpr (by decide),
   (c8_await_unbounded_amended sOk).2 sOkAfter resultsOk (by decide)⟩

/-- C9 counterexample: an environment that sets `MAX_RETRIES=3` (and an
alert-threshold override) still yields a bot with the hardcoded
`max_retries = 10`, and the alert thresholds are a fixed module constant —
refuting "max retry count, per-horizon thresholds, cooldown, backoff
base/cap are sourced from the environment". -/
theorem c9_hardcoded_config_cex :
    envWithOverrides "MAX_RETRIES" = some "3" ∧
    moduleInit envWithOverrides = Except.ok cfgOv ∧
    botInit cfgOv = Except.ok botStd ∧
    botStd.max_retries = 10 ∧
    ¬ botInit cfgOv = Except.ok { botStd with max_retries := 3 } ∧
    ALERT_THRESHOLDS = [("5m", (5 : ℚ)), ("15m", 10), ("1h", 50)] := by
  refine ⟨rfl, rfl, rfl, rfl, by decide, rfl⟩

/-- C9 amended: the required values (TELEGRAM_TOKEN, CHAT_ID) are
environment-sourced and their absence fails fast at module load with a
descriptive error, before the process starts; of the optional values only
the bot display name (BOT_NAME) is environment-sourced (with a default);
the per-horizon thresholds, the max retry count and the backoff base/cap
are hardcoded constants independent of the environment, and no cooldown
exists. -/
theorem c9_config_amended (env : String → Option String) (cfg : ModuleConfig)
    (bot : RobustCryptoBot) :
    (truthy (env "TELEGRAM_TOKEN") = false →
      moduleInit env =
        Except.error "Missing required environment variable: TELEGRAM_TOKEN") ∧
    (truthy (env "TELEGRAM_TOKEN") = true → truthy (env "CHAT_ID") = false →
      moduleInit env =
        Except.error "Missing required environment variable: CHAT_ID") ∧
    (moduleInit env = Except.ok cfg →
      cfg.botName = (env "BOT_NAME").getD "GitHub Codespaces Bot") ∧
    (botInit cfg = Except.ok bot →
      bot.max_retries = maxRetries ∧ bot.retries = 0 ∧
      bot.wsUri = "wss://stream.binance.com:9443/ws/!ticker@arr") := by
  refine ⟨?_, ?_, ?_, ?_⟩
  · intro h
    simp [moduleInit, checkRequired, REQUIRED_ENV, h]
  · intro h1 h2
    simp [moduleInit, checkRequired, REQUIRED_ENV, h1, h2]
  · intro h
    unfold moduleInit at h
    rcases hcr : checkRequired env REQUIRED_ENV with _ | v
    · rw [hcr] at h
      injection h with h'
      rw [← h']
    · rw [hcr] at h
      exact absurd h (by simp)
  · intro h
    unfold botInit at h
    by_cases hc : (cfg.telegramToken == "" || cfg.chatId == "") = true
    · rw [if_pos hc] at h
      exact absurd h (by simp)
    · rw [if_neg hc] at h
      injection h with h'
      rw [← h']
      exact ⟨rfl, rfl, rfl⟩

/-- Witness for C9 amended: the empty environment fails fast, and a valid
configuration yields the hardcoded bot constants. -/
theorem c9_config_amended_witness :
    (moduleInit (fun _ => none) =
      Except.error "Missing required environment variable: TELEGRAM_TOKEN") ∧
    (botStd.max_retries = maxRetries ∧ botStd.retries = 0 ∧
     botStd.wsUri = "wss://stream.binance.com:9443/ws/!ticker@arr") :=
  ⟨(c9_config_amended (fun _ => none) cfg0 bot0).1 rfl,
   (c9_config_amended (fun _ => none) cfgOv botStd).2.2.2 (by decide)⟩

/-- C10: the task-cancellation step of shutdown never propagates an
exception: line 122 excludes the currently running task, line 123 cancels
the rest, and the line-124 gather runs with return_exceptions=True, so it
returns the settled results (exceptions included as values) rather than
raising; whenever the awaited tasks all settle, shutdown proceeds to stop
and shut down the Telegram application. -/
theorem c10_gather_suppresses (s : SystemState)
    (h : ∀ t ∈ s.tasks, t.isCurrent = true ∨ t.done = true ∨ t.acksCancel = true) :
    ∃ s2 results, shutdownState s = some (s2, results) ∧
      s2.appRunning = false ∧
      results.length = (othersOf s).length ∧
      ∀ t ∈ othersOf s, t.isCurrent = false := by
  have hset : allSettle (othersOf s) = true := by
    have hs := (shutdownState_isSome_iff s).mpr h
    by_contra hno
    unfold shutdownState at hs
    rw [if_neg hno] at hs
    simp at hs
  refine ⟨{ tasks := s.tasks.map applyCancel, appRunning := false },
    (othersOf s).map (fun t => (cancelledFinish t).outcome), ?_, rfl, ?_, ?_⟩
  · unfold shutdownState
    rw [if_pos hset]
  · simp
  · intro t ht
    rcases List.mem_filter.mp ht with ⟨_, hnc⟩
    simpa using hnc

/-- Witness for C10 on the concrete system `sOk`, one of whose settled
tasks ended with an exception that the gather suppresses. -/
theorem c10_gather_suppresses_witness :
    ∃ s2 results, shutdownState sOk = some (s2, results) ∧
      s2.appRunning = false ∧
      results.length = (othersOf sOk).length ∧
      ∀ t ∈ othersOf sOk, t.isCurrent = false :=
  c10_gather_suppresses sOk (by decide)
